import Mathlib

/-!
Verification of the cross-venue arbitrage engine core (Annica).

Shallow embedding of the real-time trading pipeline:
throttler (`src/core/throttler.py`), session state
(`src/core/session_state.py`), market data (`src/core/market_data.py`),
spread engine (`src/core/spread_engine.py`), router (`src/core/router.py`),
execution gateway (`src/kiwoom/execution_gateway.py`) and pair manager
(`src/core/pair_manager.py`).

Python floats are modelled as `ℚ`, Python ints as `ℤ`.  Wall-clock values
are carried as explicit parameters (`now`); QTimer-armed single-shot
deadlines are modelled as the absolute instant at which the timer fires.
Logging, statistics counters and GUI signals are not modelled; every other
branch of the translated functions follows the source line by line.
-/

namespace Annica

/-! ## Throttler (`src/core/throttler.py`)

`TokenBucket.request_tokens` refills from the elapsed wall-clock before
deciding; we model the decision taken at one instant, parameterised by the
token level `tokens` (a nonnegative float in the source) after that refill.
`Throttler.request_tokens` is specialised to the ORDERS bucket, which is the
only path with reservation and auto-pause logic.  The `wait_time_ms` field
of the source's `TokenResponse` is diagnostic only and not modelled. -/

structure TokenResponse where
  granted : Bool
  tokensAllocated : ℤ
  reason : String
  deriving DecidableEq, Repr

/-- `Throttler.request_tokens(TokenType.ORDERS, count, _, priority)`:
`paused` is `self.is_auto_paused`, `reserved` is `self.reserved_order_tokens`
(which `__init__` sets from `throttling.min_tokens_free_to_start_new_pair`),
`tokens` is the orders-bucket level.  `int(tokens)` is `⌊tokens⌋` for the
bucket's nonnegative levels; the source's locals `available = int(tokens)`
and `effective_available = available - reserved` are inlined. -/
def requestOrderTokens (paused : Bool) (reserved : ℤ) (tokens : ℚ)
    (count : ℤ) (priority : ℤ) : TokenResponse :=
  if 0 < priority ∧ paused then
    { granted := false, tokensAllocated := 0, reason := "auto_paused" }
  else if 0 < priority ∧ ⌊tokens⌋ - reserved < count then
    { granted := false, tokensAllocated := 0,
      reason := "insufficient_tokens_after_reservation" }
  else if (count : ℚ) ≤ tokens then
    { granted := true, tokensAllocated := count, reason := "" }
  else
    { granted := false, tokensAllocated := 0, reason := "rate_limit_exceeded" }

/-- Default of `ThrottlingConfig.min_tokens_free_to_start_new_pair`
(`src/core/config_manager.py`), the value `Throttler.__init__` stores in
`self.reserved_order_tokens`. -/
def defaultReservedOrderTokens : ℤ := 4

/-- Auto-pause configuration
(`config.telemetry.orders_utilization_autopause`, defaults:
enabled, threshold 0.80, sustain 5 s). -/
structure AutoPauseCfg where
  enabled : Bool
  threshold : ℚ
  sustainSeconds : ℕ
  deriving DecidableEq, Repr

def defaultAutoPauseCfg : AutoPauseCfg :=
  { enabled := true, threshold := 4/5, sustainSeconds := 5 }

/-- The throttler state touched by `_monitor_utilization`:
`high_utilization_start_time` and `is_auto_paused`. -/
structure AutoPauseState where
  highStart : Option ℕ
  paused : Bool
  deriving DecidableEq, Repr

/-- One firing of the 1-second monitor timer (`_monitor_utilization`) at
wall-clock second `now` observing orders-bucket utilization `util`.
Peak-utilization statistics and the 70% warning signal are omitted. -/
def monitorStep (cfg : AutoPauseCfg) (st : AutoPauseState) (now : ℕ) (util : ℚ) :
    AutoPauseState :=
  if cfg.enabled = false then st
  else if cfg.threshold ≤ util then
    let start := st.highStart.getD now
    if cfg.sustainSeconds ≤ now - start ∧ st.paused = false then
      { highStart := some start, paused := true }
    else
      { highStart := some start, paused := st.paused }
  else
    { highStart := none, paused := false }

/-- Run the monitor over consecutive one-second samples starting at second
`n` in state `st`. -/
def runMonitorAux (cfg : AutoPauseCfg) (st : AutoPauseState) (n : ℕ) :
    List ℚ → AutoPauseState
  | [] => st
  | u :: us => runMonitorAux cfg (monitorStep cfg st n u) (n + 1) us

/-- Monitor trace from the freshly initialized throttler
(`high_utilization_start_time = None`, `is_auto_paused = False`). -/
def runMonitor (cfg : AutoPauseCfg) (us : List ℚ) : AutoPauseState :=
  runMonitorAux cfg { highStart := none, paused := false } 0 us

/-! ## Session state (`src/core/session_state.py`) -/

inductive TradingState where
  | disarmed
  | armed
  | trading
  | closing
  deriving DecidableEq, Repr

/-- `SessionStateManager._evaluate_trading_state`: `shouldBeTrading` is the
result of `_should_be_trading()`.  The handler mutates only
`self.trading_state`; it does not consult active pairs. -/
def evaluateTradingState (shouldBeTrading : Bool) (st : TradingState) :
    TradingState :=
  if shouldBeTrading then
    match st with
    | .disarmed => .armed
    | s => s
  else
    match st with
    | .trading => .closing
    | .armed => .closing
    | s => s

/-- Any sequence of re-evaluations (1-second ticks and FID-215 updates). -/
def evaluateTradingStateAll (st : TradingState) (inputs : List Bool) :
    TradingState :=
  inputs.foldl (fun s b => evaluateTradingState b s) st

/-! ## Market data (`src/core/market_data.py`) -/

/-- Per-symbol dual-venue L1 snapshot (`QuoteSnapshot`). -/
structure QuoteSnapshot where
  symbol : String
  krxBid : ℤ := 0
  krxAsk : ℤ := 0
  krxBidSize : ℤ := 0
  krxAskSize : ℤ := 0
  krxLastUpdate : ℚ := 0
  nxtBid : ℤ := 0
  nxtAsk : ℤ := 0
  nxtBidSize : ℤ := 0
  nxtAskSize : ℤ := 0
  nxtLastUpdate : ℚ := 0
  isDirty : Bool := false
  bothVenuesTouched : Bool := false
  deriving DecidableEq, Repr

/-- One delivery of `_on_real_data`: the four parsed field values
(`_parse_int` of FIDs 41/51/61/71) and the wall clock, with the venue given
by the `_NX` code suffix. -/
structure QuoteUpdate where
  isNxt : Bool
  askPrice : ℤ
  bidPrice : ℤ
  askSize : ℤ
  bidSize : ℤ
  now : ℚ
  deriving DecidableEq, Repr

/-- `MarketDataManager._on_real_data`, acting on one snapshot (the dirty-set
membership is mirrored by the `isDirty` flag; the `quote_updated` signal is
not modelled). -/
def applyRealData (q : QuoteSnapshot) (u : QuoteUpdate) : QuoteSnapshot :=
  if u.isNxt then
    let nb := if 0 < u.bidPrice then u.bidPrice else q.nxtBid
    let na := if 0 < u.askPrice then u.askPrice else q.nxtAsk
    let nbs := if 0 < u.bidSize then u.bidSize else q.nxtBidSize
    let nas := if 0 < u.askSize then u.askSize else q.nxtAskSize
    let changed : Bool :=
      decide (nb ≠ q.nxtBid ∨ na ≠ q.nxtAsk ∨ nbs ≠ q.nxtBidSize ∨ nas ≠ q.nxtAskSize)
    { q with nxtBid := nb, nxtAsk := na, nxtBidSize := nbs, nxtAskSize := nas,
             nxtLastUpdate := u.now,
             isDirty := if changed then true else q.isDirty }
  else
    let kb := if 0 < u.bidPrice then u.bidPrice else q.krxBid
    let ka := if 0 < u.askPrice then u.askPrice else q.krxAsk
    let kbs := if 0 < u.bidSize then u.bidSize else q.krxBidSize
    let kas := if 0 < u.askSize then u.askSize else q.krxAskSize
    let changed : Bool :=
      decide (kb ≠ q.krxBid ∨ ka ≠ q.krxAsk ∨ kbs ≠ q.krxBidSize ∨ kas ≠ q.krxAskSize)
    { q with krxBid := kb, krxAsk := ka, krxBidSize := kbs, krxAskSize := kas,
             krxLastUpdate := u.now,
             isDirty := if changed then true else q.isDirty }

/-- A whole stream of quote updates applied in source order. -/
def applyRealDataAll (q : QuoteSnapshot) (us : List QuoteUpdate) : QuoteSnapshot :=
  us.foldl applyRealData q

/-- `MarketDataManager.is_symbol_ready` on a snapshot found in
`self.quotes`: both halves fresh within 5 seconds, then the price checks the
source actually performs. -/
def isSymbolReadySnap (q : QuoteSnapshot) (now : ℚ) : Bool :=
  decide (now - q.krxLastUpdate < 5 ∧ now - q.nxtLastUpdate < 5
    ∧ 0 < q.krxBid ∧ 0 < q.krxAsk)

/-- `MarketDataManager.is_symbol_ready(symbol)`: `self.quotes.get(symbol)`
then the freshness and price checks; a missing symbol is not ready. -/
def isSymbolReady (quotes : List (String × QuoteSnapshot)) (symbol : String)
    (now : ℚ) : Bool :=
  match quotes.lookup symbol with
  | none => false
  | some q => isSymbolReadySnap q now

/-- Modelled from the spec's words, for comparison with `isSymbolReady`:
"both venues have received an update within the last 5 seconds and both
sides show `bid > 0` and `ask > 0`". -/
def specSymbolReady (quotes : List (String × QuoteSnapshot)) (symbol : String)
    (now : ℚ) : Bool :=
  match quotes.lookup symbol with
  | none => false
  | some q =>
    decide (now - q.krxLastUpdate < 5 ∧ now - q.nxtLastUpdate < 5
      ∧ 0 < q.krxBid ∧ 0 < q.krxAsk ∧ 0 < q.nxtBid ∧ 0 < q.nxtAsk)

/-! ## Spread engine (`src/core/spread_engine.py`) -/

/-- `ArbitrageSignal` (prices are Python ints, edges Python floats). -/
structure ArbitrageSignal where
  symbol : String
  buyVenue : String
  sellVenue : String
  buyPrice : ℤ
  sellPrice : ℤ
  maxQty : ℤ
  edgeKrw : ℚ
  edgeBps : ℚ
  totalFeesKrw : ℚ
  netEdgeKrw : ℚ
  timestamp : ℚ
  deriving DecidableEq, Repr

/-- The `SpreadEngine` fields read from the configuration:
`self.krx_fees_bps`, `self.nxt_fees_bps` (broker bps plus NXT regulatory
bps, which defaults to 0), `self.min_edge_ticks`, `self.min_visible_qty`. -/
structure SpreadCfg where
  krxFeesBps : ℚ
  nxtFeesBps : ℚ
  minEdgeTicks : ℤ
  minVisibleQty : ℤ
  deriving DecidableEq, Repr

/-- Defaults from `config_manager.py`: `krx.broker_bps = 1.5`,
`nxt.broker_bps = 1.45` (no `regulatory_bps` key, so + 0),
`min_net_ticks_after_fees = 1`, `also_require_min_visible_qty = 1`. -/
def defaultSpreadCfg : SpreadCfg :=
  { krxFeesBps := 3/2, nxtFeesBps := 29/20, minEdgeTicks := 1, minVisibleQty := 1 }

/-- `SpreadEngine._get_venue_fees_bps`. -/
def venueFeesBps (cfg : SpreadCfg) (venue : String) : ℚ :=
  if venue = "KRX" then cfg.krxFeesBps
  else if venue = "NXT" then cfg.nxtFeesBps
  else 0

/-- `SpreadEngine._is_quote_valid`. -/
def isQuoteValid (cfg : SpreadCfg) (q : QuoteSnapshot) : Bool :=
  decide (0 < q.krxBid ∧ 0 < q.krxAsk ∧ q.krxBid < q.krxAsk
    ∧ 0 < q.nxtBid ∧ 0 < q.nxtAsk ∧ q.nxtBid < q.nxtAsk
    ∧ cfg.minVisibleQty ≤ min q.krxBidSize q.krxAskSize
    ∧ cfg.minVisibleQty ≤ min q.nxtBidSize q.nxtAskSize)

/-- `SpreadEngine._calculate_direction_edge`.  Only valid quotes reach this
function in the engine, so `buy_price > 0` and the Python float divisions
are well defined; `ℚ` division by zero yields 0 but is never hit on the
emission path. -/
def calcDirectionEdge (cfg : SpreadCfg) (symbol buyVenue sellVenue : String)
    (buyPrice buySize sellPrice sellSize : ℤ) (now : ℚ) :
    Option ArbitrageSignal :=
  if sellPrice ≤ buyPrice then none
  else
    let grossEdgeKrw : ℤ := sellPrice - buyPrice
    let buyFeesKrw : ℚ := (buyPrice * venueFeesBps cfg buyVenue) / 10000
    let sellFeesKrw : ℚ := (sellPrice * venueFeesBps cfg sellVenue) / 10000
    let totalFeesKrw := buyFeesKrw + sellFeesKrw
    let netEdgeKrw : ℚ := grossEdgeKrw - totalFeesKrw
    let edgeBps : ℚ := (netEdgeKrw / buyPrice) * 10000
    some { symbol := symbol, buyVenue := buyVenue, sellVenue := sellVenue,
           buyPrice := buyPrice, sellPrice := sellPrice,
           maxQty := min buySize (min sellSize 10),
           edgeKrw := grossEdgeKrw, edgeBps := edgeBps,
           totalFeesKrw := totalFeesKrw, netEdgeKrw := netEdgeKrw,
           timestamp := now }

/-- `SpreadEngine._get_tick_size`'s tiered table on the reference price. -/
def tickTable (p : ℚ) : ℤ :=
  if p < 2000 then 1
  else if p < 5000 then 5
  else if p < 20000 then 10
  else if p < 50000 then 50
  else if p < 200000 then 100
  else if p < 500000 then 500
  else 1000

/-- `SpreadEngine._get_tick_size(symbol)` on the symbol's snapshot:
the KRX mid when both KRX sides are positive, else 50000. -/
def getTickSize (q : QuoteSnapshot) : ℤ :=
  tickTable (if 0 < q.krxAsk ∧ 0 < q.krxBid then ((q.krxAsk : ℚ) + q.krxBid) / 2 else 50000)

/-- Modelled from the spec's words, for comparison with `getTickSize`'s
reference price: "`ref` is the mid of VenueA if both sides exist, else
whichever is available, else 50000". -/
def claimRefPrice (q : QuoteSnapshot) : ℚ :=
  if 0 < q.krxBid ∧ 0 < q.krxAsk then ((q.krxAsk : ℚ) + q.krxBid) / 2
  else if 0 < q.krxBid then (q.krxBid : ℚ)
  else if 0 < q.krxAsk then (q.krxAsk : ℚ)
  else 50000

/-- `SpreadEngine._meets_edge_threshold`. -/
def meetsEdgeThreshold (cfg : SpreadCfg) (q : QuoteSnapshot)
    (s : ArbitrageSignal) : Bool :=
  decide ((getTickSize q * cfg.minEdgeTicks : ℚ) ≤ s.netEdgeKrw)

/-- `SpreadEngine._calculate_edge`: both candidate directions, best by
`net_edge_krw` (ties to the NXT→KRX direction, as in the source's
conditional expression), then the threshold check. -/
def calcEdge (cfg : SpreadCfg) (q : QuoteSnapshot) (symbol : String)
    (now : ℚ) : Option ArbitrageSignal :=
  let krxNxt := calcDirectionEdge cfg symbol "KRX" "NXT"
    q.krxAsk q.krxAskSize q.nxtBid q.nxtBidSize now
  let nxtKrx := calcDirectionEdge cfg symbol "NXT" "KRX"
    q.nxtAsk q.nxtAskSize q.krxBid q.krxBidSize now
  let best : Option ArbitrageSignal :=
    match krxNxt, nxtKrx with
    | some s1, some s2 => some (if s2.netEdgeKrw < s1.netEdgeKrw then s1 else s2)
    | some s1, none => some s1
    | none, some s2 => some s2
    | none, none => none
  match best with
  | some s => if meetsEdgeThreshold cfg q s then some s else none
  | none => none

/-- The per-symbol emission step of `SpreadEngine._process_batch`: a dirty,
eligible symbol's quote is validated and the edge calculated; the engine
emits exactly the `some` results. -/
def emitSignal (cfg : SpreadCfg) (q : QuoteSnapshot) (symbol : String)
    (now : ℚ) : Option ArbitrageSignal :=
  if isQuoteValid cfg q then calcEdge cfg q symbol now else none

/-! ## Router (`src/core/router.py`) -/

inductive OrderSide where
  | buy
  | sell
  deriving DecidableEq, Repr

inductive OrderType where
  | limit
  | market
  | limitIoc
  | marketIoc
  | nxtMid
  deriving DecidableEq, Repr

inductive Venue where
  | krx
  | nxt
  deriving DecidableEq, Repr

/-- `OrderIntent` of `router.py`. -/
structure OrderIntent where
  pairId : String
  leg : String
  symbol : String
  venue : Venue
  side : OrderSide
  quantity : ℤ
  price : ℤ
  orderType : OrderType
  isTakeLeg : Bool
  isHedgeLeg : Bool
  hogaGb : String
  kiwoomOrderType : ℤ
  priority : ℤ
  deriving DecidableEq, Repr

/-- Router configuration (`config.router`, defaults from
`config_manager.py`). -/
structure RouterCfg where
  entryPrefer : String
  hedgePrefer : String
  allowNxtMid : Bool
  deriving DecidableEq, Repr

def defaultRouterCfg : RouterCfg :=
  { entryPrefer := "ioc_or_market", hedgePrefer := "limit_or_mid",
    allowNxtMid := true }

/-- `Router._get_take_order_type`. -/
def getTakeOrderType (cfg : RouterCfg) (venue : Venue) : OrderType × String :=
  if cfg.entryPrefer = "ioc_or_market" then
    match venue with
    | .krx => (.marketIoc, "13")
    | .nxt => (.marketIoc, "13")
  else (.market, "03")

/-- `Router._should_use_nxt_mid`: net edge at least 1.5 × total fees. -/
def shouldUseNxtMid (s : ArbitrageSignal) : Bool :=
  decide (s.totalFeesKrw * (3/2) ≤ s.netEdgeKrw)

/-- `Router._get_hedge_order_type`. -/
def getHedgeOrderType (cfg : RouterCfg) (venue : Venue) (s : ArbitrageSignal) :
    OrderType × String :=
  if cfg.hedgePrefer = "limit_or_mid" then
    if venue = .nxt ∧ cfg.allowNxtMid ∧ shouldUseNxtMid s then (.nxtMid, "29")
    else (.limit, "00")
  else (.limit, "00")

/-- `Router._create_take_leg`. -/
def createTakeLeg (cfg : RouterCfg) (s : ArbitrageSignal) (pairId : String) :
    OrderIntent :=
  let venue := if s.sellVenue = "KRX" then Venue.krx else Venue.nxt
  let kiwoomOrderType : ℤ := if s.sellVenue = "KRX" then 2 else 22
  let price := s.sellPrice
  let ot := getTakeOrderType cfg venue
  { pairId := pairId, leg := "A", symbol := s.symbol, venue := venue,
    side := .sell,
    quantity := min s.maxQty 1,
    price := if ot.1 = .market ∨ ot.1 = .marketIoc then 0 else price,
    orderType := ot.1, isTakeLeg := true, isHedgeLeg := false,
    hogaGb := ot.2, kiwoomOrderType := kiwoomOrderType, priority := 0 }

/-- `Router._create_hedge_leg`. -/
def createHedgeLeg (cfg : RouterCfg) (s : ArbitrageSignal) (pairId : String) :
    OrderIntent :=
  let venue := if s.buyVenue = "KRX" then Venue.krx else Venue.nxt
  let kiwoomOrderType : ℤ := if s.buyVenue = "KRX" then 1 else 21
  let price := s.buyPrice
  let ot := getHedgeOrderType cfg venue s
  { pairId := pairId, leg := "B", symbol := s.symbol, venue := venue,
    side := .buy,
    quantity := min s.maxQty 1,
    price := if ot.1 = .nxtMid then 0 else price,
    orderType := ot.1, isTakeLeg := false, isHedgeLeg := true,
    hogaGb := ot.2, kiwoomOrderType := kiwoomOrderType, priority := 1 }

/-- `Router.create_escalation_intent`: same identity, side and quantity,
but marketable IOC at top priority. -/
def createEscalationIntent (orig : OrderIntent) : OrderIntent :=
  { orig with
    price := 0, orderType := .marketIoc, hogaGb := "13", priority := 0 }

/-! ## Execution gateway (`src/kiwoom/execution_gateway.py`) -/

inductive OrderState where
  | pendingSend
  | sent
  | accepted
  | partiallyFilled
  | filled
  | cancelled
  | rejected
  | timeout
  deriving DecidableEq, Repr

/-- One entry of `OrderRecord.fills`. -/
structure Fill where
  execId : String
  fillPrice : ℤ
  fillQty : ℤ
  timestamp : ℚ
  deriving DecidableEq, Repr

/-- The `OrderRecord` fields touched by `_handle_fill` (Kiwoom identifiers
and timeout-timer handles are not needed by the embedded transitions). -/
structure OrderRecord where
  clientOrderId : String
  quantity : ℤ
  price : ℤ
  state : OrderState := .pendingSend
  filledQuantity : ℤ := 0
  remainingQuantity : ℤ
  averageFillPrice : ℚ := 0
  fills : List Fill := []
  deriving DecidableEq, Repr

/-- `ExecutionGateway._handle_fill`: returns the updated record and the
event type (`TRADE_PARTIAL` / `TRADE_FILL`) it emits.  The source appends
the fill and accumulates quantities unconditionally, whatever `exec_id`
carries. -/
def handleFill (r : OrderRecord) (fillPrice fillQty remainingQty : ℤ)
    (execId : String) (now : ℚ) : OrderRecord × String :=
  let filled := r.filledQuantity + fillQty
  let avg : ℚ :=
    if 0 < filled then
      (r.averageFillPrice * ((filled - fillQty : ℤ) : ℚ)
        + ((fillPrice * fillQty : ℤ) : ℚ)) / (filled : ℚ)
    else r.averageFillPrice
  let fillRec : Fill :=
    { execId := execId, fillPrice := fillPrice, fillQty := fillQty,
      timestamp := now }
  if 0 < remainingQty then
    ({ r with filledQuantity := filled, remainingQuantity := remainingQty,
              averageFillPrice := avg, fills := r.fills ++ [fillRec],
              state := .partiallyFilled }, "TRADE_PARTIAL")
  else
    ({ r with filledQuantity := filled, remainingQuantity := remainingQty,
              averageFillPrice := avg, fills := r.fills ++ [fillRec],
              state := .filled }, "TRADE_FILL")

/-- `ExecutionEvent` of `execution_gateway.py`; the `data` dict is flattened
into the fields the pair manager reads. -/
structure ExecEvent where
  eventType : String
  pairId : String
  leg : String
  orderId : String
  timestamp : ℚ
  filledQty : ℤ := 0
  avgFillPrice : ℚ := 0
  reason : String := ""
  timeoutType : String := ""
  deriving DecidableEq, Repr

/-- Environment of one `send_order_intent` call: whether the throttler
grants the order token and whether the synchronous Kiwoom submit
(`_send_to_kiwoom`) succeeds. -/
structure SendEnv where
  tokenGranted : Bool
  tokenDenyReason : String
  sendSuccess : Bool
  deriving DecidableEq, Repr

/-- `ExecutionGateway.send_order_intent`: the returned client order id and
the `ORDER_REJECTED` events emitted during the call.  On token denial and
on synchronous send failure the source emits the rejection and still
returns the generated (non-empty) `client_order_id`; only the exception
path returns the empty string. -/
def sendOrderIntentEvents (env : SendEnv) (intent : OrderIntent)
    (clientOrderId : String) (now : ℚ) : String × List ExecEvent :=
  if env.tokenGranted = false then
    (clientOrderId,
      [{ eventType := "ORDER_REJECTED", pairId := intent.pairId,
         leg := intent.leg, orderId := clientOrderId, timestamp := now,
         reason := env.tokenDenyReason }])
  else if env.sendSuccess = false then
    (clientOrderId,
      [{ eventType := "ORDER_REJECTED", pairId := intent.pairId,
         leg := intent.leg, orderId := clientOrderId, timestamp := now,
         reason := "send_failed" }])
  else
    (clientOrderId, [])

/-! ## Pair manager (`src/core/pair_manager.py`)

The Qt signal `execution_event` is connected directly (same thread), so
each emitted event is handled synchronously inside the emitting call.
`send_order_intent` for the hedge and escalation legs is abstracted by an
oracle `gw : OrderIntent → String` returning the client order id (`""`
models the falsy failure return).  The model tracks one pair together with
the `order_to_pair` map, which is exactly what `_on_execution_event` needs
to route events. -/

inductive PairState where
  | candidate
  | entryTakeSent
  | entryTakeFilled
  | hedgePostPending
  | cancelPostSent
  | hedgeIocSent
  | pairedDone
  | failed
  | cooldown
  deriving DecidableEq, Repr

/-- `PairTrade` (QTimer handles are modelled by the absolute deadline the
hedge-timeout timer would fire at; statistics are omitted). -/
structure PairTrade where
  pairId : String
  symbol : String
  signalTotalFeesKrw : ℚ
  takeLeg : OrderIntent
  hedgeLeg : OrderIntent
  state : PairState := .candidate
  takeOrderId : String := ""
  hedgeOrderId : String := ""
  cancelOrderId : String := ""
  escalationOrderId : String := ""
  takeFilledQty : ℤ := 0
  takeFillPrice : ℚ := 0
  hedgeFilledQty : ℤ := 0
  hedgeFillPrice : ℚ := 0
  takeFillTime : ℚ := 0
  hedgeFillTime : ℚ := 0
  unhedgedStartTime : ℚ := 0
  hedgeDeadline : Option ℚ := none
  realizedEdgeKrw : ℚ := 0
  isProfitable : Bool := false
  deriving DecidableEq, Repr

/-- The pair-manager state relevant to one pair: the pair record and the
`order_to_pair` map. -/
structure PMState where
  pair : PairTrade
  orderToPair : List (String × String)
  deriving DecidableEq, Repr

/-- Execution configuration used by the pair manager
(`config.execution.t_hedge_ms`, default 1000). -/
structure ExecCfg where
  tHedgeMs : ℚ
  deriving DecidableEq, Repr

def defaultExecCfg : ExecCfg := { tHedgeMs := 1000 }

/-- `PairManager._fail_pair`: stop the hedge timer, set `FAILED`
(statistics and delayed cleanup omitted). -/
def failPair (st : PMState) : PMState :=
  { st with pair := { st.pair with state := .failed, hedgeDeadline := none } }

/-- `PairManager._calculate_pair_results`. -/
def calculatePairResults (p : PairTrade) : PairTrade :=
  let qty := min p.takeFilledQty p.hedgeFilledQty
  let grossPnl : ℚ :=
    if p.takeLeg.side = .sell then
      (p.takeFillPrice - p.hedgeFillPrice) * (qty : ℚ)
    else
      (p.hedgeFillPrice - p.takeFillPrice) * (qty : ℚ)
  let estimatedFees := p.signalTotalFeesKrw * (qty : ℚ)
  let netPnl := grossPnl - estimatedFees
  { p with realizedEdgeKrw := netPnl, isProfitable := decide (0 < netPnl) }

/-- `PairManager._complete_pair`: stop the hedge timer, compute results,
set `PAIRED_DONE` (inventory emission, statistics and delayed cleanup
omitted). -/
def completePair (st : PMState) : PMState :=
  let p := calculatePairResults { st.pair with hedgeDeadline := none }
  { st with pair := { p with state := .pairedDone } }

/-- `PairManager._escalate_hedge`: escalation intent from the hedge leg
with quantity matched to the take fill; on a falsy order id the pair
fails. -/
def escalateHedge (gw : OrderIntent → String) (st : PMState) : PMState :=
  let escalationIntent :=
    { createEscalationIntent st.pair.hedgeLeg with
      quantity := st.pair.takeFilledQty }
  let escalationOrderId := gw escalationIntent
  if escalationOrderId ≠ "" then
    { pair := { st.pair with escalationOrderId := escalationOrderId,
                             state := .hedgeIocSent },
      orderToPair := (escalationOrderId, st.pair.pairId) :: st.orderToPair }
  else failPair st

/-- `PairManager._send_hedge_leg` followed by `_start_hedge_timeout`:
mutate the routing decision's hedge quantity to the observed take fill,
submit, and on success arm the single-shot hedge timer for
`t_hedge_ms` (deadline `now + tHedgeMs`). -/
def sendHedgeLeg (cfg : ExecCfg) (gw : OrderIntent → String) (st : PMState)
    (now : ℚ) : PMState :=
  let hedgeIntent := { st.pair.hedgeLeg with quantity := st.pair.takeFilledQty }
  let hedgeOrderId := gw hedgeIntent
  let p := { st.pair with hedgeLeg := hedgeIntent }
  if hedgeOrderId ≠ "" then
    { pair := { p with hedgeOrderId := hedgeOrderId,
                       state := .hedgePostPending,
                       hedgeDeadline := some (now + cfg.tHedgeMs) },
      orderToPair := (hedgeOrderId, p.pairId) :: st.orderToPair }
  else escalateHedge gw { st with pair := p }

/-- `PairManager._handle_trade_fill`. -/
def handleTradeFill (cfg : ExecCfg) (gw : OrderIntent → String) (st : PMState)
    (ev : ExecEvent) (now : ℚ) : PMState :=
  if ev.orderId = st.pair.takeOrderId then
    let p := { st.pair with
               takeFilledQty := ev.filledQty, takeFillPrice := ev.avgFillPrice,
               takeFillTime := ev.timestamp, unhedgedStartTime := ev.timestamp }
    if p.state = .entryTakeSent then sendHedgeLeg cfg gw { st with pair := p } now
    else { st with pair := p }
  else if ev.orderId = st.pair.hedgeOrderId ∨ ev.orderId = st.pair.escalationOrderId then
    let p := { st.pair with
               hedgeFilledQty := ev.filledQty, hedgeFillPrice := ev.avgFillPrice,
               hedgeFillTime := ev.timestamp }
    completePair { st with pair := p }
  else st

/-- `PairManager._handle_order_rejected`. -/
def handleOrderRejected (gw : OrderIntent → String) (st : PMState)
    (ev : ExecEvent) : PMState :=
  if ev.orderId = st.pair.takeOrderId then failPair st
  else if 0 < st.pair.takeFilledQty then escalateHedge gw st
  else failPair st

/-- `PairManager._handle_order_cancelled`. -/
def handleOrderCancelled (gw : OrderIntent → String) (st : PMState)
    (ev : ExecEvent) : PMState :=
  if ev.orderId = st.pair.hedgeOrderId then escalateHedge gw st
  else st

/-- `PairManager._handle_order_timeout`. -/
def handleOrderTimeout (gw : OrderIntent → String) (st : PMState)
    (ev : ExecEvent) : PMState :=
  if ev.orderId = st.pair.takeOrderId then failPair st
  else if 0 < st.pair.takeFilledQty then escalateHedge gw st
  else st

/-- `PairManager._on_execution_event`: route by `order_to_pair`, then by
event type.  `TRADE_PARTIAL` (and every other unlisted type) falls
through unhandled. -/
def onExecutionEvent (cfg : ExecCfg) (gw : OrderIntent → String)
    (st : PMState) (ev : ExecEvent) (now : ℚ) : PMState :=
  match st.orderToPair.lookup ev.orderId with
  | none => st
  | some pid =>
    if pid = st.pair.pairId then
      if ev.eventType = "ORDER_REJECTED" then handleOrderRejected gw st ev
      else if ev.eventType = "TRADE_FILL" then handleTradeFill cfg gw st ev now
      else if ev.eventType = "ORDER_CANCELLED" then handleOrderCancelled gw st ev
      else if ev.eventType = "ORDER_TIMEOUT" then handleOrderTimeout gw st ev
      else st
    else st

/-- `PairManager._start_pair_trade`: submission of the take leg via
`ExecutionGateway.send_order_intent`.  Events emitted during the call are
dispatched synchronously (direct Qt connection) before `_start_pair_trade`
resumes, i.e. before `order_to_pair` maps the new id; afterwards a truthy
returned id moves the pair to `ENTRY_TAKE_SENT`, a falsy one fails it. -/
def startPairTrade (cfg : ExecCfg) (gw : OrderIntent → String) (env : SendEnv)
    (st : PMState) (clientOrderId : String) (now : ℚ) : PMState :=
  let sent := sendOrderIntentEvents env st.pair.takeLeg clientOrderId now
  let st1 := sent.2.foldl (fun s e => onExecutionEvent cfg gw s e now) st
  if sent.1 ≠ "" then
    { pair := { st1.pair with takeOrderId := sent.1, state := .entryTakeSent },
      orderToPair := (sent.1, st1.pair.pairId) :: st1.orderToPair }
  else failPair st1

/-! ## Concrete fixtures

Shared concrete values used by counterexamples and witnesses. -/

def dummySignal : ArbitrageSignal :=
  { symbol := "", buyVenue := "", sellVenue := "", buyPrice := 0,
    sellPrice := 0, maxQty := 0, edgeKrw := 0, edgeBps := 0,
    totalFeesKrw := 0, netEdgeKrw := 0, timestamp := 0 }

/-- A snapshot whose KRX book (10000/10010) is crossed by the NXT book
(10100/10110): the KRX→NXT direction nets about 87 KRW against a 10 KRW
tick, so the engine emits a signal. -/
def qW : QuoteSnapshot :=
  { symbol := "005930", krxBid := 10000, krxAsk := 10010, krxBidSize := 5,
    krxAskSize := 5, krxLastUpdate := 0, nxtBid := 10100, nxtAsk := 10110,
    nxtBidSize := 5, nxtAskSize := 5, nxtLastUpdate := 0 }

/-- The signal the engine emits for `qW` (`max_qty = min 5 5 10 = 5`). -/
def sigMain : ArbitrageSignal :=
  (emitSignal defaultSpreadCfg qW "005930" 0).getD dummySignal

def takeMain : OrderIntent := createTakeLeg defaultRouterCfg sigMain "P1"

def hedgeMain : OrderIntent := createHedgeLeg defaultRouterCfg sigMain "P1"

/-- A pair whose take leg was sent successfully (`ENTRY_TAKE_SENT`,
`order_to_pair` maps the take order id). -/
def pairC1 : PairTrade :=
  { pairId := "P1", symbol := "005930",
    signalTotalFeesKrw := sigMain.totalFeesKrw, takeLeg := takeMain,
    hedgeLeg := hedgeMain, state := .entryTakeSent, takeOrderId := "T1" }

def stC1 : PMState := { pair := pairC1, orderToPair := [("T1", "P1")] }

/-- Gateway oracle that accepts every submitted intent. -/
def gwFixed : OrderIntent → String := fun _ => "H1"

def evFill : ExecEvent :=
  { eventType := "TRADE_FILL", pairId := "P1", leg := "A", orderId := "T1",
    timestamp := 777, filledQty := 1, avgFillPrice := 10100 }

def evPartial : ExecEvent :=
  { eventType := "TRADE_PARTIAL", pairId := "P1", leg := "A", orderId := "T1",
    timestamp := 777, filledQty := 1, avgFillPrice := 10100 }

/-- A freshly admitted pair (`CANDIDATE`, nothing sent yet). -/
def pairC2 : PairTrade :=
  { pairId := "P2", symbol := "005930",
    signalTotalFeesKrw := sigMain.totalFeesKrw,
    takeLeg := createTakeLeg defaultRouterCfg sigMain "P2",
    hedgeLeg := createHedgeLeg defaultRouterCfg sigMain "P2" }

def stC2 : PMState := { pair := pairC2, orderToPair := [] }

/-- Take-leg token denied by the throttler. -/
def envDenied : SendEnv :=
  { tokenGranted := false,
    tokenDenyReason := "insufficient_tokens_after_reservation",
    sendSuccess := true }

/-- Synchronous Kiwoom submit fails. -/
def envSendFail : SendEnv :=
  { tokenGranted := true, tokenDenyReason := "", sendSuccess := false }

/-- Order record for a 2-share order, before any fill. -/
def rC3 : OrderRecord :=
  { clientOrderId := "ORD1", quantity := 2, price := 100,
    remainingQuantity := 2 }

/-- `rC3` after its first fill (exec id `E1`, 1 share at 100, 1 share
remaining). -/
def r1C3 : OrderRecord := (handleFill rC3 100 1 1 "E1" 10).1

/-- Both halves fresh, KRX sides positive, NXT sides still zero. -/
def qC8 : QuoteSnapshot :=
  { symbol := "005930", krxBid := 10000, krxAsk := 10010,
    krxLastUpdate := 0, nxtBid := 0, nxtAsk := 0, nxtLastUpdate := 0 }

def quotesC8 : List (String × QuoteSnapshot) := [("005930", qC8)]

/-- A snapshot with every price and size field positive. -/
def qC10 : QuoteSnapshot :=
  { symbol := "005930", krxBid := 10000, krxAsk := 10010, krxBidSize := 3,
    krxAskSize := 4, nxtBid := 10100, nxtAsk := 10110, nxtBidSize := 5,
    nxtAskSize := 6 }

/-- An update whose parsed fields are all nonpositive. -/
def uC10 : QuoteUpdate :=
  { isNxt := true, askPrice := 0, bidPrice := -1, askSize := 0,
    bidSize := 0, now := 2 }

/-! ## Helper lemmas -/

theorem runMonitorAux_append (cfg : AutoPauseCfg) (st : AutoPauseState)
    (n : ℕ) (us : List ℚ) (u : ℚ) :
    runMonitorAux cfg st n (us ++ [u])
      = monitorStep cfg (runMonitorAux cfg st n us) (n + us.length) u := by
  induction us generalizing st n with
  | nil => simp [runMonitorAux]
  | cons v vs ih =>
    show runMonitorAux cfg (monitorStep cfg st n v) (n + 1) (vs ++ [u]) = _
    rw [ih]
    have : n + 1 + vs.length = n + (vs.length + 1) := by omega
    rw [this]
    rfl

theorem runMonitor_append (cfg : AutoPauseCfg) (us : List ℚ) (u : ℚ) :
    runMonitor cfg (us ++ [u])
      = monitorStep cfg (runMonitor cfg us) us.length u := by
  unfold runMonitor
  rw [runMonitorAux_append]
  norm_num

theorem getD_append_lt (l m : List ℚ) (i : ℕ) (h : i < l.length) :
    (l ++ m).getD i 0 = l.getD i 0 := by
  induction l generalizing i with
  | nil => simp at h
  | cons x xs ih =>
    cases i with
    | zero => rfl
    | succ j =>
      simp only [List.cons_append, List.getD_cons_succ]
      exact ih j (by simp only [List.length_cons] at h; omega)

theorem getD_append_self (l : List ℚ) (u : ℚ) :
    (l ++ [u]).getD l.length 0 = u := by
  induction l with
  | nil => rfl
  | cons x xs ih =>
    simp only [List.cons_append, List.length_cons, List.getD_cons_succ]
    exact ih

/-- While `high_utilization_start_time = some t`, every sample from second
`t` on has been at or above the threshold. -/
theorem runMonitor_highStart_spec (cfg : AutoPauseCfg)
    (hen : cfg.enabled = true) :
    ∀ (us : List ℚ) (t : ℕ), (runMonitor cfg us).highStart = some t →
      t ≤ us.length ∧ ∀ i, t ≤ i → i < us.length → cfg.threshold ≤ us.getD i 0 := by
  intro us
  induction us using List.reverseRecOn with
  | nil =>
    intro t h
    simp [runMonitor, runMonitorAux] at h
  | append_singleton vs v ih =>
    intro t h
    rw [runMonitor_append] at h
    unfold monitorStep at h
    rw [hen] at h
    simp only [Bool.true_eq_false, if_false] at h
    by_cases hth : cfg.threshold ≤ v
    · rw [if_pos hth] at h
      have hstart : (runMonitor cfg vs).highStart.getD vs.length = t := by
        split_ifs at h <;> simpa using h
      cases hs : (runMonitor cfg vs).highStart with
      | none =>
        rw [hs] at hstart
        simp at hstart
        subst hstart
        refine ⟨by simp, fun i h1 h2 => ?_⟩
        simp only [List.length_append, List.length_singleton] at h2
        have : i = vs.length := by omega
        subst this
        rw [getD_append_self]
        exact hth
      | some t0 =>
        rw [hs] at hstart
        simp only [Option.getD_some] at hstart
        obtain ⟨hle, hall⟩ := ih t0 hs
        subst hstart
        refine ⟨by simp only [List.length_append, List.length_singleton]; omega,
          fun i h1 h2 => ?_⟩
        simp only [List.length_append, List.length_singleton] at h2
        by_cases hi : i < vs.length
        · rw [getD_append_lt _ _ _ hi]
          exact hall i h1 hi
        · have : i = vs.length := by omega
          subst this
          rw [getD_append_self]
          exact hth
    · rw [if_neg hth] at h
      simp at h

/-- Positivity of every price and size field is preserved by one
`_on_real_data` application. -/
theorem applyRealData_pos (q : QuoteSnapshot) (u : QuoteUpdate) :
    (0 < q.krxBid → 0 < (applyRealData q u).krxBid)
    ∧ (0 < q.krxAsk → 0 < (applyRealData q u).krxAsk)
    ∧ (0 < q.krxBidSize → 0 < (applyRealData q u).krxBidSize)
    ∧ (0 < q.krxAskSize → 0 < (applyRealData q u).krxAskSize)
    ∧ (0 < q.nxtBid → 0 < (applyRealData q u).nxtBid)
    ∧ (0 < q.nxtAsk → 0 < (applyRealData q u).nxtAsk)
    ∧ (0 < q.nxtBidSize → 0 < (applyRealData q u).nxtBidSize)
    ∧ (0 < q.nxtAskSize → 0 < (applyRealData q u).nxtAskSize) := by
  by_cases hn : u.isNxt <;>
    refine ⟨?_, ?_, ?_, ?_, ?_, ?_, ?_, ?_⟩ <;>
    · intro h
      simp only [applyRealData, hn, if_true, if_false, Bool.false_eq_true]
      first
      | (split_ifs <;> omega)
      | omega

/-- Positivity of every price and size field is preserved by any stream of
updates. -/
theorem applyRealDataAll_pos :
    ∀ (us : List QuoteUpdate) (q : QuoteSnapshot),
    (0 < q.krxBid → 0 < (applyRealDataAll q us).krxBid)
    ∧ (0 < q.krxAsk → 0 < (applyRealDataAll q us).krxAsk)
    ∧ (0 < q.krxBidSize → 0 < (applyRealDataAll q us).krxBidSize)
    ∧ (0 < q.krxAskSize → 0 < (applyRealDataAll q us).krxAskSize)
    ∧ (0 < q.nxtBid → 0 < (applyRealDataAll q us).nxtBid)
    ∧ (0 < q.nxtAsk → 0 < (applyRealDataAll q us).nxtAsk)
    ∧ (0 < q.nxtBidSize → 0 < (applyRealDataAll q us).nxtBidSize)
    ∧ (0 < q.nxtAskSize → 0 < (applyRealDataAll q us).nxtAskSize) := by
  intro us
  induction us with
  | nil => intro q; simp [applyRealDataAll]
  | cons u us ih =>
    intro q
    have h1 := applyRealData_pos q u
    have h2 := ih (applyRealData q u)
    simp only [applyRealDataAll, List.foldl_cons] at h2 ⊢
    exact ⟨fun h => h2.1 (h1.1 h),
           fun h => h2.2.1 (h1.2.1 h),
           fun h => h2.2.2.1 (h1.2.2.1 h),
           fun h => h2.2.2.2.1 (h1.2.2.2.1 h),
           fun h => h2.2.2.2.2.1 (h1.2.2.2.2.1 h),
           fun h => h2.2.2.2.2.2.1 (h1.2.2.2.2.2.1 h),
           fun h => h2.2.2.2.2.2.2.1 (h1.2.2.2.2.2.2.1 h),
           fun h => h2.2.2.2.2.2.2.2 (h1.2.2.2.2.2.2.2 h)⟩

/-- A signal surviving `_calculate_edge` passed `_meets_edge_threshold`. -/
theorem calcEdge_threshold (cfg : SpreadCfg) (q : QuoteSnapshot)
    (symbol : String) (now : ℚ) (s : ArbitrageSignal)
    (h : calcEdge cfg q symbol now = some s) :
    meetsEdgeThreshold cfg q s = true := by
  unfold calcEdge at h
  dsimp only at h
  split at h
  · split_ifs at h with hm
    injection h with hss
    subst hss
    exact hm
  · exact absurd h (by simp)

/-! ## Claim theorems -/

/-- Claim C9 (code evaluation): `_evaluate_trading_state` never leaves
`CLOSING` — neither a single re-evaluation nor any sequence of them reaches
`DISARMED`, whatever `_should_be_trading()` returns and however many pairs
remain (the handler does not consult them).  The code keeps `CLOSING`
absorbing, against the claim's `CLOSING → DISARMED once no active pairs
remain`. -/
theorem session_closing_absorbing :
    (∀ b, evaluateTradingState b TradingState.closing = TradingState.closing)
    ∧ ∀ inputs : List Bool,
        evaluateTradingStateAll TradingState.closing inputs
          = TradingState.closing := by
  have hstep : ∀ b,
      evaluateTradingState b TradingState.closing = TradingState.closing := by
    intro b; cases b <;> rfl
  refine ⟨hstep, ?_⟩
  intro inputs
  induction inputs with
  | nil => rfl
  | cons b bs ih =>
    show evaluateTradingStateAll (evaluateTradingState b TradingState.closing) bs
      = TradingState.closing
    rw [hstep b]
    exact ih

unseal Rat.add Rat.sub Rat.mul Rat.inv in
/-- Claim C4 (counterexample): for the engine-emitted signal with
`max_qty = 5`, both routed legs carry quantity 1, not `signal.max_qty` —
the router clamps to the 1-share pilot. -/
theorem router_pilot_quantity_counterexample :
    (createTakeLeg defaultRouterCfg sigMain "P4").quantity ≠ sigMain.maxQty
    ∧ (createHedgeLeg defaultRouterCfg sigMain "P4").quantity ≠ sigMain.maxQty
    ∧ sigMain.maxQty = 5 := by decide

/-- Claim C4 (amended): for every routed signal, the take leg has
`venue = sell_venue`, side SELL, priority 0 (URGENT) and the hedge leg has
`venue = buy_venue`, side BUY, priority 1 (NORMAL), but both carry
`quantity = min (signal.max_qty) 1` (pilot clamp), not `signal.max_qty`. -/
theorem router_leg_fields (cfg : RouterCfg) (s : ArbitrageSignal)
    (pairId : String) :
    (createTakeLeg cfg s pairId).venue
        = (if s.sellVenue = "KRX" then Venue.krx else Venue.nxt)
    ∧ (createTakeLeg cfg s pairId).side = OrderSide.sell
    ∧ (createTakeLeg cfg s pairId).quantity = min s.maxQty 1
    ∧ (createTakeLeg cfg s pairId).priority = 0
    ∧ (createHedgeLeg cfg s pairId).venue
        = (if s.buyVenue = "KRX" then Venue.krx else Venue.nxt)
    ∧ (createHedgeLeg cfg s pairId).side = OrderSide.buy
    ∧ (createHedgeLeg cfg s pairId).quantity = min s.maxQty 1
    ∧ (createHedgeLeg cfg s pairId).priority = 1 :=
  ⟨rfl, rfl, rfl, rfl, rfl, rfl, rfl, rfl⟩

unseal Rat.add Rat.sub Rat.mul Rat.inv in
/-- Claim C3 (counterexample): re-delivering the chejan fill with the
already-processed `exec_id = E1` changes `filled_quantity` and appends a
second fill record — the re-delivery is not deduplicated. -/
theorem handle_fill_duplicate_counterexample :
    (handleFill r1C3 100 1 1 "E1" 11).1.filledQuantity ≠ r1C3.filledQuantity
    ∧ (handleFill r1C3 100 1 1 "E1" 11).1.fills.length ≠ r1C3.fills.length
    ∧ "E1" ∈ r1C3.fills.map Fill.execId := by decide

/-- Claim C3 (amended): processing a fill whose `exec_id` is already among
the record's fills still increments `filled_quantity` by `fill_qty` and
appends the fill again — `_handle_fill` performs no dedup on `exec_id`. -/
theorem handle_fill_no_dedup (r : OrderRecord)
    (fillPrice fillQty remainingQty : ℤ) (execId : String) (now : ℚ)
    (_hdup : execId ∈ r.fills.map Fill.execId) :
    (handleFill r fillPrice fillQty remainingQty execId now).1.filledQuantity
        = r.filledQuantity + fillQty
    ∧ (handleFill r fillPrice fillQty remainingQty execId now).1.fills
        = r.fills ++ [{ execId := execId, fillPrice := fillPrice,
                        fillQty := fillQty, timestamp := now }] := by
  unfold handleFill
  dsimp only
  split_ifs <;> exact ⟨rfl, rfl⟩

unseal Rat.add Rat.sub Rat.mul Rat.inv in
/-- Claim C3 witness: the amended theorem applied to the duplicate
re-delivery of `E1`. -/
theorem handle_fill_no_dedup_witness :
    (handleFill r1C3 100 1 1 "E1" 11).1.filledQuantity
      = r1C3.filledQuantity + 1 :=
  (handle_fill_no_dedup r1C3 100 1 1 "E1" 11 (by decide)).1

unseal Rat.add Rat.sub Rat.mul Rat.inv in
/-- Claim C8 (counterexample): a snapshot with fresh updates on both
venues and positive KRX prices but zero NXT prices is reported ready by
`is_symbol_ready`, though the spec's condition (both venues' sides
positive) fails. -/
theorem is_symbol_ready_counterexample :
    isSymbolReady quotesC8 "005930" 0 = true
    ∧ specSymbolReady quotesC8 "005930" 0 = false := by decide

/-- Claim C8 (amended): `is_ready(symbol)` holds exactly when both venues'
halves were updated within the last 5 seconds and the KRX side shows
`bid > 0` and `ask > 0`; the NXT prices are not checked. -/
theorem is_symbol_ready_characterization
    (quotes : List (String × QuoteSnapshot)) (symbol : String) (now : ℚ) :
    isSymbolReady quotes symbol now = true
      ↔ ∃ q, quotes.lookup symbol = some q
          ∧ now - q.krxLastUpdate < 5 ∧ now - q.nxtLastUpdate < 5
          ∧ 0 < q.krxBid ∧ 0 < q.krxAsk := by
  unfold isSymbolReady
  cases h : quotes.lookup symbol with
  | none => simp
  | some q => simp [isSymbolReadySnap]

unseal Rat.add Rat.sub Rat.mul Rat.inv in
/-- Claim C8 witness: the characterization applied to the concrete
snapshot `qC8`. -/
theorem is_symbol_ready_characterization_witness :
    isSymbolReady quotesC8 "005930" 0 = true :=
  (is_symbol_ready_characterization quotesC8 "005930" 0).mpr
    ⟨qC8, by decide, by decide, by decide, by decide, by decide⟩

/-- Claim C6 (counterexample): with the default configuration the
throttler reserves `min_tokens_free_to_start_new_pair = 4` tokens, not
`reserve_order_tokens = 2`: a NORMAL request for 1 token with 4 in the
bucket is denied by the reservation although granting it would leave
3 ≥ 2 tokens, where the claim predicts a grant. -/
theorem throttler_reservation_counterexample :
    (requestOrderTokens false defaultReservedOrderTokens 4 1 1).granted = false
    ∧ (requestOrderTokens false defaultReservedOrderTokens 4 1 1).reason
        = "insufficient_tokens_after_reservation"
    ∧ (2 : ℤ) ≤ 4 - 1 := by decide

/-- Claim C6 (amended): outside auto-pause, a NORMAL order-token request is
granted exactly when granting it leaves at least the throttler's
reservation constant available — the constant `__init__` sets from
`min_tokens_free_to_start_new_pair` (default 4), not from
`reserve_order_tokens`; an URGENT request ignores both the reservation and
the pause and is granted exactly when the bucket holds the requested
count. -/
theorem throttler_reservation_behavior (reserved : ℤ) (tokens : ℚ)
    (count : ℤ) (hres : 0 ≤ reserved) :
    ((requestOrderTokens false reserved tokens count 1).granted = true
        ↔ count + reserved ≤ ⌊tokens⌋)
    ∧ ∀ paused,
        ((requestOrderTokens paused reserved tokens count 0).granted = true
          ↔ (count : ℚ) ≤ tokens) := by
  constructor
  · unfold requestOrderTokens
    rw [if_neg (by simp : ¬((0:ℤ) < 1 ∧ false = true))]
    by_cases h2 : ⌊tokens⌋ - reserved < count
    · rw [if_pos ⟨by norm_num, h2⟩]
      constructor
      · intro hg; simp at hg
      · intro hc; exfalso; omega
    · rw [if_neg (fun hh => h2 hh.2)]
      have hcast : (count : ℚ) ≤ tokens := by
        have hc : count ≤ ⌊tokens⌋ := by omega
        calc (count : ℚ) ≤ ((⌊tokens⌋ : ℤ) : ℚ) := by exact_mod_cast hc
          _ ≤ tokens := Int.floor_le tokens
      rw [if_pos hcast]
      constructor
      · intro _; omega
      · intro _; rfl
  · intro paused
    unfold requestOrderTokens
    rw [if_neg (by simp : ¬((0:ℤ) < 0 ∧ paused = true))]
    rw [if_neg (by simp : ¬((0:ℤ) < 0 ∧ ⌊tokens⌋ - reserved < count))]
    by_cases hc : (count : ℚ) ≤ tokens
    · rw [if_pos hc]
      simp [hc]
    · rw [if_neg hc]
      simp [hc]

/-- Claim C6 witness: with the code's default reservation of 4, a NORMAL
request for 1 token is granted when 6 tokens are in the bucket. -/
theorem throttler_reservation_behavior_witness :
    (requestOrderTokens false 4 6 1 1).granted = true :=
  (throttler_reservation_behavior 4 6 1 (by norm_num)).1.mpr (by norm_num)

/-- Claim C7: while auto-paused, every NORMAL orders request is denied with
reason `auto_paused` and URGENT requests are decided exactly as when not
paused; the pause is only entered after the utilization samples have been
at or above the threshold for at least `sustain_seconds` consecutive
one-second samples (at the entering step the previous `sustain_seconds`
samples and the current one are all at or above it), and one sample below
the threshold releases it. -/
theorem throttler_autopause_spec :
    (∀ (reserved : ℤ) (tokens : ℚ) (count : ℤ),
        (requestOrderTokens true reserved tokens count 1).granted = false
        ∧ (requestOrderTokens true reserved tokens count 1).reason
            = "auto_paused")
    ∧ (∀ (paused : Bool) (reserved : ℤ) (tokens : ℚ) (count : ℤ),
        requestOrderTokens paused reserved tokens count 0
          = requestOrderTokens false reserved tokens count 0)
    ∧ (∀ (cfg : AutoPauseCfg) (us : List ℚ) (u : ℚ),
        cfg.enabled = true →
        (runMonitor cfg us).paused = false →
        (runMonitor cfg (us ++ [u])).paused = true →
        ∃ t, t + cfg.sustainSeconds ≤ us.length
          ∧ (∀ i, t ≤ i → i < us.length → cfg.threshold ≤ us.getD i 0)
          ∧ cfg.threshold ≤ u)
    ∧ (∀ (cfg : AutoPauseCfg) (us : List ℚ) (u : ℚ),
        cfg.enabled = true →
        (runMonitor cfg us).paused = true →
        u < cfg.threshold →
        (runMonitor cfg (us ++ [u])).paused = false) := by
  refine ⟨fun reserved tokens count => ⟨rfl, rfl⟩,
    fun paused reserved tokens count => by cases paused <;> rfl, ?_, ?_⟩
  · intro cfg us u hen hf ht
    rw [runMonitor_append] at ht
    unfold monitorStep at ht
    rw [hen] at ht
    simp only [Bool.true_eq_false, if_false] at ht
    by_cases hth : cfg.threshold ≤ u
    · rw [if_pos hth] at ht
      split_ifs at ht with hcond
      · obtain ⟨hsus, -⟩ := hcond
        cases hs : (runMonitor cfg us).highStart with
        | none =>
          rw [hs] at hsus
          simp only [Option.getD_none] at hsus
          exact ⟨us.length, by omega, fun i h1 h2 => absurd h2 (by omega), hth⟩
        | some t0 =>
          rw [hs] at hsus
          simp only [Option.getD_some] at hsus
          obtain ⟨hle, hall⟩ := runMonitor_highStart_spec cfg hen us t0 hs
          exact ⟨t0, by omega, hall, hth⟩
      · dsimp only at ht
        rw [hf] at ht
        exact absurd ht (by simp)
    · rw [if_neg hth] at ht
      dsimp only at ht
      exact absurd ht (by simp)
  · intro cfg us u hen hp hu
    rw [runMonitor_append]
    unfold monitorStep
    rw [hen]
    simp only [Bool.true_eq_false, if_false]
    rw [if_neg (not_le.mpr hu)]

unseal Rat.add Rat.sub Rat.mul Rat.inv in
/-- Claim C7 witness: six consecutive saturated samples trip the pause and
the next sample below the threshold releases it. -/
theorem throttler_autopause_spec_witness :
    (runMonitor defaultAutoPauseCfg ([1, 1, 1, 1, 1, 1] ++ [0])).paused
      = false :=
  throttler_autopause_spec.2.2.2 defaultAutoPauseCfg [1, 1, 1, 1, 1, 1] 0
    rfl (by decide) (by norm_num [defaultAutoPauseCfg])

/-- Claim C5: every signal the spread engine emits has a net edge of at
least `tick_size(ref) × min_net_ticks`, with `ref` as the claim defines it
(KRX mid when both sides are positive — the case every emitted signal is
in — else an available side, else 50000). -/
theorem spread_emitted_signal_meets_threshold (cfg : SpreadCfg)
    (q : QuoteSnapshot) (symbol : String) (now : ℚ) (s : ArbitrageSignal)
    (h : emitSignal cfg q symbol now = some s) :
    ((tickTable (claimRefPrice q) : ℚ) * cfg.minEdgeTicks) ≤ s.netEdgeKrw := by
  unfold emitSignal at h
  split_ifs at h with hv
  have hq := of_decide_eq_true hv
  obtain ⟨hb, ha, -, -, -, -, -, -⟩ := hq
  have hmeets := calcEdge_threshold cfg q symbol now s h
  have hth := of_decide_eq_true hmeets
  have href : claimRefPrice q = ((q.krxAsk : ℚ) + q.krxBid) / 2 := by
    unfold claimRefPrice
    rw [if_pos ⟨hb, ha⟩]
  have htick : getTickSize q = tickTable (((q.krxAsk : ℚ) + q.krxBid) / 2) := by
    unfold getTickSize
    rw [if_pos ⟨ha, hb⟩]
  rw [href, ← htick]
  exact hth

unseal Rat.add Rat.sub Rat.mul Rat.inv in
/-- Claim C5 witness: the theorem applied to the crossed snapshot `qW`,
whose emitted signal is `sigMain`. -/
theorem spread_emitted_signal_meets_threshold_witness :
    ((tickTable (claimRefPrice qW) : ℚ) * defaultSpreadCfg.minEdgeTicks)
      ≤ sigMain.netEdgeKrw :=
  spread_emitted_signal_meets_threshold defaultSpreadCfg qW "005930" 0
    sigMain (by decide)

/-- Claim C10: a parsed quote field that is not strictly positive leaves
the corresponding snapshot fields (on both venues) unchanged, and a price
or size field that is positive stays positive under any stream of
updates. -/
theorem quote_update_field_guards (q : QuoteSnapshot) (u : QuoteUpdate)
    (us : List QuoteUpdate) :
    ((u.bidPrice ≤ 0 → (applyRealData q u).krxBid = q.krxBid
        ∧ (applyRealData q u).nxtBid = q.nxtBid)
     ∧ (u.askPrice ≤ 0 → (applyRealData q u).krxAsk = q.krxAsk
        ∧ (applyRealData q u).nxtAsk = q.nxtAsk)
     ∧ (u.bidSize ≤ 0 → (applyRealData q u).krxBidSize = q.krxBidSize
        ∧ (applyRealData q u).nxtBidSize = q.nxtBidSize)
     ∧ (u.askSize ≤ 0 → (applyRealData q u).krxAskSize = q.krxAskSize
        ∧ (applyRealData q u).nxtAskSize = q.nxtAskSize))
    ∧ ((0 < q.krxBid → 0 < (applyRealDataAll q us).krxBid)
       ∧ (0 < q.krxAsk → 0 < (applyRealDataAll q us).krxAsk)
       ∧ (0 < q.krxBidSize → 0 < (applyRealDataAll q us).krxBidSize)
       ∧ (0 < q.krxAskSize → 0 < (applyRealDataAll q us).krxAskSize)
       ∧ (0 < q.nxtBid → 0 < (applyRealDataAll q us).nxtBid)
       ∧ (0 < q.nxtAsk → 0 < (applyRealDataAll q us).nxtAsk)
       ∧ (0 < q.nxtBidSize → 0 < (applyRealDataAll q us).nxtBidSize)
       ∧ (0 < q.nxtAskSize → 0 < (applyRealDataAll q us).nxtAskSize)) := by
  refine ⟨⟨?_, ?_, ?_, ?_⟩, applyRealDataAll_pos us q⟩
  all_goals intro h
  all_goals by_cases hn : u.isNxt
  all_goals simp only [applyRealData, hn, if_true, if_false, Bool.false_eq_true]
  all_goals constructor
  all_goals first
    | (split_ifs <;> omega)
    | omega
    | trivial

/-- Claim C10 witness: the guards applied to the all-positive snapshot
`qC10` and the all-nonpositive update `uC10`. -/
theorem quote_update_field_guards_witness :
    ((applyRealData qC10 uC10).krxBid = qC10.krxBid
      ∧ (applyRealData qC10 uC10).nxtBid = qC10.nxtBid)
    ∧ 0 < (applyRealDataAll qC10 [uC10]).krxBid :=
  ⟨(quote_update_field_guards qC10 uC10 [uC10]).1.1 (by decide),
   (quote_update_field_guards qC10 uC10 [uC10]).2.1 (by decide)⟩

unseal Rat.add Rat.sub Rat.mul Rat.inv in
/-- Claim C1 (counterexample): a `TRADE_PARTIAL` of the take leg of a pair
in `ENTRY_TAKE_SENT` is ignored entirely — `_on_execution_event` routes
only `TRADE_FILL`: no unhedged-since stamp, no hedge submission, no
deadline. -/
theorem pm_trade_partial_ignored_counterexample :
    onExecutionEvent defaultExecCfg gwFixed stC1 evPartial 777 = stC1
    ∧ stC1.pair.unhedgedStartTime ≠ evPartial.timestamp
    ∧ stC1.pair.hedgeOrderId = "" := by decide

/-- Claim C1 (amended): on the first `TRADE_FILL` of the take leg (partial
fills are ignored by the pair manager), the pair stamps
`unhedged_since = event timestamp`, sets the hedge quantity to the
observed filled quantity, submits the hedge, and — when the submit
returns an order id — arms the hedge deadline at `now + t_hedge_ms`
(default 1000 ms, `defaultExecCfg`). -/
theorem pm_hedge_sent_on_take_fill (cfg : ExecCfg) (gw : OrderIntent → String)
    (st : PMState) (ev : ExecEvent) (now : ℚ)
    (hlook : st.orderToPair.lookup ev.orderId = some st.pair.pairId)
    (htype : ev.eventType = "TRADE_FILL")
    (hid : ev.orderId = st.pair.takeOrderId)
    (hstate : st.pair.state = PairState.entryTakeSent)
    (hsend : gw { st.pair.hedgeLeg with quantity := ev.filledQty } ≠ "") :
    (onExecutionEvent cfg gw st ev now).pair.unhedgedStartTime = ev.timestamp
    ∧ (onExecutionEvent cfg gw st ev now).pair.hedgeLeg.quantity = ev.filledQty
    ∧ (onExecutionEvent cfg gw st ev now).pair.hedgeOrderId
        = gw { st.pair.hedgeLeg with quantity := ev.filledQty }
    ∧ (onExecutionEvent cfg gw st ev now).pair.state
        = PairState.hedgePostPending
    ∧ (onExecutionEvent cfg gw st ev now).pair.hedgeDeadline
        = some (now + cfg.tHedgeMs) := by
  unfold onExecutionEvent
  rw [hlook]
  dsimp only
  rw [if_pos rfl, htype]
  rw [if_neg (show ("TRADE_FILL" : String) ≠ "ORDER_REJECTED" by decide)]
  rw [if_pos (rfl : ("TRADE_FILL" : String) = "TRADE_FILL")]
  unfold handleTradeFill
  rw [hid]
  dsimp only
  rw [if_pos rfl]
  rw [if_pos hstate]
  unfold sendHedgeLeg
  dsimp only
  rw [if_pos hsend]
  exact ⟨rfl, rfl, rfl, rfl, rfl⟩

unseal Rat.add Rat.sub Rat.mul Rat.inv in
/-- Claim C1 witness: the amended theorem applied to the concrete pair
`stC1` and fill event `evFill`. -/
theorem pm_hedge_sent_on_take_fill_witness :
    (onExecutionEvent defaultExecCfg gwFixed stC1 evFill 777).pair.state
      = PairState.hedgePostPending
    ∧ (onExecutionEvent defaultExecCfg gwFixed stC1 evFill 777).pair.unhedgedStartTime
      = evFill.timestamp
    ∧ (onExecutionEvent defaultExecCfg gwFixed stC1 evFill 777).pair.hedgeDeadline
      = some (777 + defaultExecCfg.tHedgeMs) :=
  ⟨(pm_hedge_sent_on_take_fill defaultExecCfg gwFixed stC1 evFill 777
      (by decide) rfl rfl rfl (by decide)).2.2.2.1,
   (pm_hedge_sent_on_take_fill defaultExecCfg gwFixed stC1 evFill 777
      (by decide) rfl rfl rfl (by decide)).1,
   (pm_hedge_sent_on_take_fill defaultExecCfg gwFixed stC1 evFill 777
      (by decide) rfl rfl rfl (by decide)).2.2.2.2⟩

unseal Rat.add Rat.sub Rat.mul Rat.inv in
/-- Claim C2 (code evaluation): when the take-leg token is denied by the
throttler, or the synchronous Kiwoom submit fails, `send_order_intent`
emits `ORDER_REJECTED` before `_start_pair_trade` has mapped the order id
(the event is dropped) and still returns a truthy id, so the pair lands in
`ENTRY_TAKE_SENT` — not `FAILED` — with no hedge sent and no further event
pending for it. -/
theorem pm_take_denial_not_failed :
    ((startPairTrade defaultExecCfg gwFixed envDenied stC2 "T2" 0).pair.state
        = PairState.entryTakeSent
      ∧ (startPairTrade defaultExecCfg gwFixed envDenied stC2 "T2" 0).pair.state
        ≠ PairState.failed
      ∧ (startPairTrade defaultExecCfg gwFixed envDenied stC2 "T2" 0).pair.hedgeOrderId
        = "")
    ∧ ((startPairTrade defaultExecCfg gwFixed envSendFail stC2 "T2" 0).pair.state
        = PairState.entryTakeSent
      ∧ (startPairTrade defaultExecCfg gwFixed envSendFail stC2 "T2" 0).pair.hedgeOrderId
        = "") := by decide

end Annica
